import Mathlib

/-!
Shallow embedding of the signalk-noaa-observations plugin (src/index.js).

JavaScript numbers are modelled as real numbers (ℝ); a JavaScript value that
may be `null` is modelled as `Option ℝ`.  The callback results of the HTTP
client are modelled by `HttpResult`: `err` is a truthy transport error,
`ok status data` a response with its HTTP status code.  Functions whose only
effects are log lines and message publication are modelled by the pure value
they build.
-/

/-- Source constant `observationsKey = 'observations.noaa'`. -/
def observationsKey : String := "observations.noaa"

/-- Source constant `checkEveryNMinutes = 15`. -/
def checkEveryNMinutes : ℕ := 15

/-- Source constant `distanceLimit = 100`. -/
noncomputable def distanceLimit : ℝ := 100

/-- Source `kilometersPerHourToMetersPerSecond`: `null` maps to `null`,
otherwise `value * 0.2777777777777778`. -/
noncomputable def kilometersPerHourToMetersPerSecond : Option ℝ → Option ℝ
  | none => none
  | some value => some (value * 0.2777777777777778)

/-- Source `degreesToRadians`: `null` maps to `null`, otherwise
`value * 0.0174533` (the source's truncated degree-to-radian constant). -/
noncomputable def degreesToRadians : Option ℝ → Option ℝ
  | none => none
  | some value => some (value * 0.0174533)

/-- Source `celsiusToKelvin`: `null` maps to `null`, otherwise `value + 273.15`. -/
noncomputable def celsiusToKelvin : Option ℝ → Option ℝ
  | none => none
  | some value => some (value + 273.15)

/-- The law-of-cosines intermediate of source `calculateDistance`:
`Math.sin(radlat1) * Math.sin(radlat2) +
 Math.cos(radlat1) * Math.cos(radlat2) * Math.cos(radtheta)`
with `radlat1 = π*lat1/180`, `radlat2 = π*lat2/180`, `radtheta = π*(lon1-lon2)/180`. -/
noncomputable def distRaw (lat1 lon1 lat2 lon2 : ℝ) : ℝ :=
  Real.sin (Real.pi * lat1 / 180) * Real.sin (Real.pi * lat2 / 180) +
    Real.cos (Real.pi * lat1 / 180) * Real.cos (Real.pi * lat2 / 180) *
      Real.cos (Real.pi * (lon1 - lon2) / 180)

/-- The clamp in source `calculateDistance`: `if (dist > 1) { dist = 1; }`. -/
noncomputable def distClamped (lat1 lon1 lat2 lon2 : ℝ) : ℝ :=
  if distRaw lat1 lon1 lat2 lon2 > 1 then 1 else distRaw lat1 lon1 lat2 lon2

/-- Source `calculateDistance`: returns 0 when both points coincide, otherwise
`acos` of the clamped intermediate, converted back to degrees and scaled by
`60 * 1.1515` and then `0.8684` (nautical miles). -/
noncomputable def calculateDistance (lat1 lon1 lat2 lon2 : ℝ) : ℝ :=
  if lat1 = lat2 ∧ lon1 = lon2 then 0
  else
    Real.arccos (distClamped lat1 lon1 lat2 lon2) * 180 / Real.pi * 60 * 1.1515 * 0.8684

/-- `properties` of a station feature returned by the stations endpoint. -/
structure StationProperties where
  stationIdentifier : String
  name : String

/-- A station feature: `id`, `properties`, and `geometry.coordinates`
(`[0]` is longitude, `[1]` is latitude). -/
structure Station where
  id : String
  properties : StationProperties
  lon : ℝ
  lat : ℝ

/-- Body of a success response of the stations endpoint: `data.features`. -/
structure StationsResponse where
  features : List Station

/-- `data.properties` of the latest-observation endpoint; each numeric field
is the `.value` member, which may be `null`. -/
structure ObsProperties where
  timestamp : String
  textDescription : String
  temperature : Option ℝ
  windDirection : Option ℝ
  windSpeed : Option ℝ
  windGust : Option ℝ
  barometricPressure : Option ℝ

/-- Body of a success response of the latest-observation endpoint:
`data.properties` plus `data.geometry.coordinates` (`[0]` lon, `[1]` lat). -/
structure ObsResponse where
  properties : ObsProperties
  lon : ℝ
  lat : ℝ

/-- A Signal K value as emitted by the plugin: a string, a possibly-null
number, or a position object `{longitude, latitude}`. -/
inductive SKValue where
  | str : String → SKValue
  | num : Option ℝ → SKValue
  | pos : ℝ → ℝ → SKValue

/-- Result handed to a `request.get` callback: a truthy transport `error`,
or a response with its `statusCode` and parsed JSON body. -/
inductive HttpResult (α : Type) where
  | err : HttpResult α
  | ok : ℕ → α → HttpResult α

/-- The `values` array built in the success branch of source
`retrieveStationData`: nine path/value pairs rooted at
`observations.noaa.<lowercased station identifier>`. -/
noncomputable def buildValues (station : Station) (data : ObsResponse) :
    List (String × SKValue) :=
  let stationId := station.properties.stationIdentifier.toLower
  [ (observationsKey ++ "." ++ stationId ++ ".name",
      SKValue.str station.properties.name),
    (observationsKey ++ "." ++ stationId ++ ".weatherText",
      SKValue.str data.properties.textDescription),
    (observationsKey ++ "." ++ stationId ++ ".date",
      SKValue.str data.properties.timestamp),
    (observationsKey ++ "." ++ stationId ++ ".position",
      SKValue.pos data.lon data.lat),
    (observationsKey ++ "." ++ stationId ++ ".wind.speed",
      SKValue.num (kilometersPerHourToMetersPerSecond data.properties.windSpeed)),
    (observationsKey ++ "." ++ stationId ++ ".wind.gust",
      SKValue.num (kilometersPerHourToMetersPerSecond data.properties.windGust)),
    (observationsKey ++ "." ++ stationId ++ ".wind.direction",
      SKValue.num (degreesToRadians data.properties.windDirection)),
    (observationsKey ++ "." ++ stationId ++ ".temperature",
      SKValue.num (celsiusToKelvin data.properties.temperature)),
    (observationsKey ++ "." ++ stationId ++ ".pressure",
      SKValue.num data.properties.barometricPressure) ]

/-- Source `retrieveStationData`, as the value its callback publishes:
on `!error && response.statusCode == 200` the nine built values are handed to
`app.handleMessage`; otherwise only a debug line is logged (`none`). -/
noncomputable def retrieveStationData (station : Station)
    (resp : HttpResult ObsResponse) : Option (List (String × SKValue)) :=
  match resp with
  | .err => none
  | .ok statusCode data =>
      if statusCode = 200 then some (buildValues station data) else none

/-- The per-station loop of source `retrieveObservations`: each selected
station is processed by `retrieveStationData` on its own response,
independently of the other stations. -/
noncomputable def processStations (stations : List Station)
    (fetch : Station → HttpResult ObsResponse) :
    List (Option (List (String × SKValue))) :=
  stations.map (fun st => retrieveStationData st (fetch st))

/-- Source `retrieveObservations`, as the list of stations it selects for
fetching: on a transport error or a non-200 status nothing is selected;
on success exactly the features within `distanceLimit` of the position are
kept, in the provider's order. -/
noncomputable def retrieveObservations (lat lng : ℝ)
    (resp : HttpResult StationsResponse) : List Station :=
  match resp with
  | .err => []
  | .ok statusCode data =>
      if statusCode = 200 then
        data.features.filter
          (fun st => decide (calculateDistance lat lng st.lat st.lon ≤ distanceLimit))
      else []

/-- The `value` member of `navigation.position`. -/
structure GeoPosition where
  latitude : ℝ
  longitude : ℝ

/-- The object returned by `app.getSelfPath('navigation.position')`; its
`value` member may itself be absent. -/
structure PositionMessage where
  value : Option GeoPosition

/-- Outcome of one timer-triggered cycle: skipped (debug line, return),
ran with the read latitude/longitude, or crashed with a TypeError while
reading `position.value.latitude`. -/
inductive CycleOutcome where
  | skipped : CycleOutcome
  | ran : ℝ → ℝ → CycleOutcome
  | crashed : CycleOutcome

/-- Source `checkAndPublishObservations`: `if (!position)` log and return;
otherwise read `position.value.latitude` and `position.value.longitude`
(a TypeError when `value` is absent) and call `retrieveObservations`. -/
def checkAndPublishObservations (position : Option PositionMessage) :
    CycleOutcome :=
  match position with
  | none => CycleOutcome.skipped
  | some p =>
      match p.value with
      | none => CycleOutcome.crashed
      | some v => CycleOutcome.ran v.latitude v.longitude

/-- A concrete station used to instantiate hypothesis-bearing theorems. -/
noncomputable def sampleStation : Station :=
  ⟨"https://api.weather.gov/stations/KBOS", ⟨"KBOS", "Boston Logan"⟩, -71.0, 42.4⟩

/-- A concrete observation body with every numeric field null. -/
noncomputable def sampleObs : ObsResponse :=
  ⟨⟨"2022-01-01T00:00:00+00:00", "Cloudy", none, none, none, none, none⟩, -71.0, 42.4⟩

/-- Claim C5: `kilometersPerHourToMetersPerSecond` and `celsiusToKelvin` are
total pure functions over `float|null`: null maps to null; otherwise the
former multiplies by 0.2777777777777778 (so 36 km/h maps to ≈ 10 m/s) and the
latter adds 273.15 (so 0 °C maps to exactly 273.15 K). -/
theorem unitConverter_spec :
    kilometersPerHourToMetersPerSecond none = none
    ∧ celsiusToKelvin none = none
    ∧ (∀ v : ℝ, kilometersPerHourToMetersPerSecond (some v)
        = some (v * 0.2777777777777778))
    ∧ (∀ v : ℝ, celsiusToKelvin (some v) = some (v + 273.15))
    ∧ celsiusToKelvin (some 0) = some 273.15
    ∧ kilometersPerHourToMetersPerSecond (some 36)
        = some (36 * 0.2777777777777778)
    ∧ |(36 : ℝ) * 0.2777777777777778 - 10| < 1 / 1000000000 := by
  refine ⟨rfl, rfl, fun v => rfl, fun v => rfl, ?_, rfl, ?_⟩
  · show some ((0 : ℝ) + 273.15) = some 273.15
    norm_num
  · rw [abs_sub_lt_iff]
    constructor <;> norm_num

/-- Claim C4 counterexample: `degreesToRadians` does not multiply by the exact
constant π/180; at input 180 it returns 180 * 0.0174533 = 3.141594, which is
strictly greater than π. -/
theorem degreesToRadians_not_exact :
    degreesToRadians (some 180) ≠ some (180 * (Real.pi / 180)) := by
  intro h
  have h1 : (180 : ℝ) * 0.0174533 = 180 * (Real.pi / 180) := by
    simpa [degreesToRadians] using h
  have h2 : (180 : ℝ) * (Real.pi / 180) = Real.pi := by
    field_simp
  have h3 : Real.pi < 3.141593 := Real.pi_lt_d6
  rw [h2] at h1
  norm_num at h1
  linarith

/-- Claim C4 (amended): `degreesToRadians` is null-preserving and otherwise
multiplies by the truncated constant 0.0174533, so `degreesToRadians 180` is
3.141594, within 2·10⁻⁶ of π but not equal to it. -/
theorem degreesToRadians_amended :
    degreesToRadians none = none
    ∧ (∀ v : ℝ, degreesToRadians (some v) = some (v * 0.0174533))
    ∧ degreesToRadians (some 180) = some (180 * 0.0174533)
    ∧ |(180 : ℝ) * 0.0174533 - Real.pi| < 2 / 1000000 := by
  refine ⟨rfl, fun v => rfl, rfl, ?_⟩
  have h1 : (3.141592 : ℝ) < Real.pi := Real.pi_gt_d6
  have h2 : Real.pi < 3.141593 := Real.pi_lt_d6
  rw [abs_sub_lt_iff]
  constructor <;> [linarith [h1]; linarith [h2]]

/-- Claim C7: the distance from any point to itself is exactly zero, via the
explicit identical-points branch of `calculateDistance`. -/
theorem calculateDistance_self (lat lon : ℝ) :
    calculateDistance lat lon lat lon = 0 := by
  simp [calculateDistance]

/-- Claim C1: for every station and every successfully fetched observation,
the built update has exactly 9 path/value pairs in the fixed order name,
weatherText, date, position, wind.speed, wind.gust, wind.direction,
temperature, pressure; every path lowercases the station identifier; the
pressure and text fields pass through unconverted while wind speed, gust,
direction and temperature go through the unit converters. -/
theorem buildValues_spec (station : Station) (data : ObsResponse) :
    retrieveStationData station (HttpResult.ok 200 data)
      = some (buildValues station data)
    ∧ (buildValues station data).length = 9
    ∧ (buildValues station data).map Prod.fst =
        [ observationsKey ++ "." ++ station.properties.stationIdentifier.toLower ++ ".name",
          observationsKey ++ "." ++ station.properties.stationIdentifier.toLower ++ ".weatherText",
          observationsKey ++ "." ++ station.properties.stationIdentifier.toLower ++ ".date",
          observationsKey ++ "." ++ station.properties.stationIdentifier.toLower ++ ".position",
          observationsKey ++ "." ++ station.properties.stationIdentifier.toLower ++ ".wind.speed",
          observationsKey ++ "." ++ station.properties.stationIdentifier.toLower ++ ".wind.gust",
          observationsKey ++ "." ++ station.properties.stationIdentifier.toLower ++ ".wind.direction",
          observationsKey ++ "." ++ station.properties.stationIdentifier.toLower ++ ".temperature",
          observationsKey ++ "." ++ station.properties.stationIdentifier.toLower ++ ".pressure" ]
    ∧ (buildValues station data).map Prod.snd =
        [ SKValue.str station.properties.name,
          SKValue.str data.properties.textDescription,
          SKValue.str data.properties.timestamp,
          SKValue.pos data.lon data.lat,
          SKValue.num (kilometersPerHourToMetersPerSecond data.properties.windSpeed),
          SKValue.num (kilometersPerHourToMetersPerSecond data.properties.windGust),
          SKValue.num (degreesToRadians data.properties.windDirection),
          SKValue.num (celsiusToKelvin data.properties.temperature),
          SKValue.num data.properties.barometricPressure ] := by
  refine ⟨?_, rfl, rfl, rfl⟩
  simp [retrieveStationData]

/-- Claim C3: a numeric observation field that is absent (null) in the payload
yields a null published value rather than an error: each unit converter maps
null to null, and the corresponding entry of the built update carries
`SKValue.num none`. -/
theorem missingFields_spec :
    kilometersPerHourToMetersPerSecond none = none
    ∧ degreesToRadians none = none
    ∧ celsiusToKelvin none = none
    ∧ (∀ (station : Station) (data : ObsResponse),
        data.properties.windSpeed = none →
          (buildValues station data)[4]? =
            some (observationsKey ++ "." ++
              station.properties.stationIdentifier.toLower ++ ".wind.speed",
              SKValue.num none))
    ∧ (∀ (station : Station) (data : ObsResponse),
        data.properties.windGust = none →
          (buildValues station data)[5]? =
            some (observationsKey ++ "." ++
              station.properties.stationIdentifier.toLower ++ ".wind.gust",
              SKValue.num none))
    ∧ (∀ (station : Station) (data : ObsResponse),
        data.properties.windDirection = none →
          (buildValues station data)[6]? =
            some (observationsKey ++ "." ++
              station.properties.stationIdentifier.toLower ++ ".wind.direction",
              SKValue.num none))
    ∧ (∀ (station : Station) (data : ObsResponse),
        data.properties.temperature = none →
          (buildValues station data)[7]? =
            some (observationsKey ++ "." ++
              station.properties.stationIdentifier.toLower ++ ".temperature",
              SKValue.num none))
    ∧ (∀ (station : Station) (data : ObsResponse),
        data.properties.barometricPressure = none →
          (buildValues station data)[8]? =
            some (observationsKey ++ "." ++
              station.properties.stationIdentifier.toLower ++ ".pressure",
              SKValue.num none)) := by
  refine ⟨rfl, rfl, rfl, ?_, ?_, ?_, ?_, ?_⟩ <;>
    · intro station data h
      simp [buildValues, h, kilometersPerHourToMetersPerSecond, degreesToRadians,
        celsiusToKelvin]

/-- Claim C3 witness: on a concrete observation with every numeric field null,
the wind-speed and pressure entries are published as null. -/
theorem missingFields_spec_witness :
    (buildValues sampleStation sampleObs)[4]? =
      some (observationsKey ++ "." ++
        sampleStation.properties.stationIdentifier.toLower ++ ".wind.speed",
        SKValue.num none)
    ∧ (buildValues sampleStation sampleObs)[8]? =
      some (observationsKey ++ "." ++
        sampleStation.properties.stationIdentifier.toLower ++ ".pressure",
        SKValue.num none) :=
  ⟨missingFields_spec.2.2.2.1 sampleStation sampleObs rfl,
   missingFields_spec.2.2.2.2.2.2.2 sampleStation sampleObs rfl⟩

/-- Claim C2: on a 200 response `retrieveObservations` keeps exactly the
stations whose computed distance to the position is at most `distanceLimit`
(which is 100), as a sublist of the provider's list (original order, no
resort); on a transport error or a non-success status it returns the empty
list. -/
theorem retrieveObservations_spec :
    (∀ (lat lng : ℝ) (data : StationsResponse) (st : Station),
        st ∈ retrieveObservations lat lng (HttpResult.ok 200 data) ↔
          st ∈ data.features ∧ calculateDistance lat lng st.lat st.lon ≤ distanceLimit)
    ∧ (∀ (lat lng : ℝ) (data : StationsResponse),
        (retrieveObservations lat lng (HttpResult.ok 200 data)).Sublist data.features)
    ∧ distanceLimit = 100
    ∧ (∀ lat lng : ℝ, retrieveObservations lat lng HttpResult.err = [])
    ∧ (∀ (lat lng : ℝ) (statusCode : ℕ) (data : StationsResponse),
        statusCode ≠ 200 →
          retrieveObservations lat lng (HttpResult.ok statusCode data) = []) := by
  refine ⟨?_, ?_, rfl, fun lat lng => rfl, ?_⟩
  · intro lat lng data st
    simp [retrieveObservations, List.mem_filter]
  · intro lat lng data
    have h : retrieveObservations lat lng (HttpResult.ok 200 data)
        = data.features.filter
            (fun st => decide (calculateDistance lat lng st.lat st.lon ≤ distanceLimit)) := by
      simp [retrieveObservations]
    rw [h]
    exact List.filter_sublist _
  · intro lat lng statusCode data h
    simp [retrieveObservations, h]

/-- Claim C2 witness: a 404 stations response yields the empty selection. -/
theorem retrieveObservations_spec_witness :
    retrieveObservations 0 0 (HttpResult.ok 404 ⟨[]⟩) = [] :=
  retrieveObservations_spec.2.2.2.2 0 0 404 ⟨[]⟩ (by decide)

/-- Claim C8: `retrieveStationData` returns `none` (and raises nothing) on a
transport error or a non-200 status, and in the per-station loop each
station's published entry depends only on that station's own response, so one
station's failure leaves the other stations' results unchanged. -/
theorem retrieveStationData_spec :
    (∀ station : Station, retrieveStationData station HttpResult.err = none)
    ∧ (∀ (station : Station) (statusCode : ℕ) (data : ObsResponse),
        statusCode ≠ 200 →
          retrieveStationData station (HttpResult.ok statusCode data) = none)
    ∧ (∀ (stations : List Station) (f g : Station → HttpResult ObsResponse)
        (i : ℕ) (station : Station),
        stations[i]? = some station → f station = g station →
          (processStations stations f)[i]? = (processStations stations g)[i]?) := by
  refine ⟨fun station => rfl, ?_, ?_⟩
  · intro station statusCode data h
    simp [retrieveStationData, h]
  · intro stations f g i station hst hfg
    simp [processStations, List.getElem?_map, hst, hfg]

/-- Claim C8 witness: a concrete 404 response maps to `none`, and on a
one-station list the processed entry is determined by that station's own
response. -/
theorem retrieveStationData_spec_witness :
    retrieveStationData sampleStation (HttpResult.ok 404 sampleObs) = none
    ∧ (processStations [sampleStation] (fun _ => HttpResult.err))[0]?
        = (processStations [sampleStation] (fun _ => HttpResult.err))[0]? :=
  ⟨retrieveStationData_spec.2.1 sampleStation 404 sampleObs (by decide),
   retrieveStationData_spec.2.2 [sampleStation] (fun _ => HttpResult.err)
     (fun _ => HttpResult.err) 0 sampleStation rfl rfl⟩

/-- The law-of-cosines expression is bounded below by -1 for all angles. -/
lemma neg_one_le_trigSum (x y z : ℝ) :
    -1 ≤ Real.sin x * Real.sin y + Real.cos x * Real.cos y * Real.cos z := by
  rcases le_or_lt 0 (Real.cos x * Real.cos y) with h | h
  · have h1 : Real.cos x * Real.cos y * (-1) ≤ Real.cos x * Real.cos y * Real.cos z :=
      mul_le_mul_of_nonneg_left (Real.neg_one_le_cos z) h
    have h2 : Real.cos (x + y) ≤ 1 := Real.cos_le_one _
    rw [Real.cos_add] at h2
    linarith
  · have h1 : Real.cos x * Real.cos y * 1 ≤ Real.cos x * Real.cos y * Real.cos z :=
      mul_le_mul_of_nonpos_left (Real.cos_le_one z) h.le
    have h2 : -1 ≤ Real.cos (x - y) := Real.neg_one_le_cos _
    rw [Real.cos_sub] at h2
    linarith

/-- Claim C6: for valid latitudes and longitudes (antipodal points included)
the clamped law-of-cosines value fed to `acos` lies in [-1, 1] — the clamp
caps the upper side and the expression can never fall below -1 — so
`calculateDistance` is a well-defined nonnegative real, never NaN. -/
theorem calculateDistance_no_nan (lat1 lon1 lat2 lon2 : ℝ)
    (h1 : -90 ≤ lat1) (h2 : lat1 ≤ 90) (h3 : -180 ≤ lon1) (h4 : lon1 ≤ 180)
    (h5 : -90 ≤ lat2) (h6 : lat2 ≤ 90) (h7 : -180 ≤ lon2) (h8 : lon2 ≤ 180) :
    (-1 ≤ distClamped lat1 lon1 lat2 lon2 ∧ distClamped lat1 lon1 lat2 lon2 ≤ 1)
    ∧ 0 ≤ calculateDistance lat1 lon1 lat2 lon2 := by
  have hraw : -1 ≤ distRaw lat1 lon1 lat2 lon2 := neg_one_le_trigSum _ _ _
  have hclamp : -1 ≤ distClamped lat1 lon1 lat2 lon2
      ∧ distClamped lat1 lon1 lat2 lon2 ≤ 1 := by
    unfold distClamped
    split_ifs with hgt
    · constructor <;> norm_num
    · exact ⟨hraw, le_of_not_lt hgt⟩
  refine ⟨hclamp, ?_⟩
  unfold calculateDistance
  split_ifs with heq
  · exact le_refl 0
  · have ha : 0 ≤ Real.arccos (distClamped lat1 lon1 lat2 lon2) :=
      Real.arccos_nonneg _
    have hpi : 0 < Real.pi := Real.pi_pos
    have hstep : 0 ≤ Real.arccos (distClamped lat1 lon1 lat2 lon2) * 180 / Real.pi :=
      div_nonneg (by linarith) hpi.le
    nlinarith

/-- Claim C6 witness: at the antipodal pair (0, 0) and (0, 180) the clamped
intermediate is in [-1, 1] and the distance is a nonnegative real. -/
theorem calculateDistance_no_nan_witness :
    ((-1 ≤ distClamped 0 0 0 180 ∧ distClamped 0 0 0 180 ≤ 1)
      ∧ 0 ≤ calculateDistance 0 0 0 180) :=
  calculateDistance_no_nan 0 0 0 180 (by norm_num) (by norm_num) (by norm_num)
    (by norm_num) (by norm_num) (by norm_num) (by norm_num) (by norm_num)

/-- Claim C9: when no current position is available at trigger time the cycle
is skipped (a debug line, then return to Idle): it neither runs the fetch nor
crashes, and nothing propagates to the scheduler. -/
theorem checkAndPublishObservations_skip :
    checkAndPublishObservations none = CycleOutcome.skipped
    ∧ checkAndPublishObservations none ≠ CycleOutcome.crashed :=
  ⟨rfl, fun h => CycleOutcome.noConfusion h⟩

/-- Claim C10: the guard tests only that the position object itself is
present; on a present position whose `value` member is absent the cycle is
not skipped but crashes with a TypeError while reading
`position.value.latitude`. -/
theorem checkAndPublishObservations_missing_value :
    checkAndPublishObservations (some ⟨none⟩) = CycleOutcome.crashed
    ∧ checkAndPublishObservations (some ⟨none⟩) ≠ CycleOutcome.skipped :=
  ⟨rfl, fun h => CycleOutcome.noConfusion h⟩
